import Mathlib

/-!
Verification of the ProtoDisk-Sim pipeline against its specification.

The development shallowly embeds the parts of the repository that the
spec talks about:

* `src/naming.py` — `determine_category` (feature classifier);
* `src/single_run.py` — `run_radmc_command` (command runner with its
  photon-progress parsing), `run_single_simulation` (phase
  orchestrator), `suppress_output` (file-descriptor silencer) and
  `RawTracker`;
* `src/terminal_ui.py` — the state-changing operations of
  `AdvancedPhaseTracker` (`log` escaping, `start_phase`,
  `set_phase_total`, `update_progress`, `complete_phase`).

Python dictionaries become association lists, Python dynamic values
become an inductive `PyVal`, exceptions become `Except`, and
side-effecting code becomes either explicit state passing or an event
trace (`Ev`).  Real-time clock readings are passed in explicitly.
-/

deriving instance DecidableEq for Except

namespace ProtoDisk

/-- Dynamic Python values that appear as simulation parameters:
integers, floats (as rationals), booleans, numeric lists and strings. -/
inductive PyVal where
  | int (n : Int)
  | float (q : Rat)
  | bool (b : Bool)
  | vec (l : List Rat)
  | str (s : String)
deriving DecidableEq

/-- A parameter mapping (Python dict), first binding wins. -/
def Params : Type := List (String × PyVal)

/-- `params.get(k, d)` — value at key `k`, or the default `d`. -/
def Params.getD (p : Params) (k : String) (d : PyVal) : PyVal :=
  match p.find? (fun q => q.1 == k) with
  | some q => q.2
  | none => d

/-- Python truthiness of a value (`if v:`); never raises. -/
def pyTruthy : PyVal → Bool
  | PyVal.int n => n != 0
  | PyVal.float q => q != 0
  | PyVal.bool b => b
  | PyVal.vec l => !l.isEmpty
  | PyVal.str s => s != ""

/-- Python `v > 0`.  Comparing a list or a string with an integer
raises `TypeError`, modelled as `Except.error ()`.  `True > 0` is
`True` because `bool` is an `int` subtype. -/
def pyGT0 : PyVal → Except Unit Bool
  | PyVal.int n => Except.ok (decide (0 < n))
  | PyVal.float q => Except.ok (decide (0 < q))
  | PyVal.bool b => Except.ok b
  | PyVal.vec _ => Except.error ()
  | PyVal.str _ => Except.error ()

/-- Python `any(v > 0 for v in x)`: iterating a non-list raises
`TypeError`. -/
def pyAnyGT0 : PyVal → Except Unit Bool
  | PyVal.vec l => Except.ok (l.any (fun q => decide (0 < q)))
  | _ => Except.error ()

/-- Python `any(v != 0 for v in x)`: iterating a non-list raises
`TypeError`. -/
def pyAnyNe0 : PyVal → Except Unit Bool
  | PyVal.vec l => Except.ok (l.any (fun q => q != 0))
  | _ => Except.error ()

/-- Short-circuiting Python `or` over two fallible boolean
computations: the right side is evaluated only when the left side
succeeds with `False`. -/
def pyOr (a b : Except Unit Bool) : Except Unit Bool :=
  match a with
  | Except.error e => Except.error e
  | Except.ok true => Except.ok true
  | Except.ok false => b

/-- Decimal digits of a proper fraction `r/d` (`r < d`), most
significant first, with bounded fuel (Python floats print finitely). -/
def fracDigits : Nat → Nat → Nat → List Nat
  | 0, _, _ => []
  | _ + 1, 0, _ => []
  | fuel + 1, r, d => (r * 10 / d) :: fracDigits fuel (r * 10 % d) d

/-- Python `str` of a float, for f-string interpolation of numeric
parameters (e.g. `str(2.0) = "2.0"`). -/
def floatStr (q : Rat) : String :=
  let sign := if q < 0 then "-" else ""
  let a := |q|
  let ip := a.num.toNat / a.den
  let r := a.num.toNat % a.den
  let frac := if r = 0 then [0] else fracDigits 17 r a.den
  sign ++ toString ip ++ "." ++ String.join (frac.map (fun d => toString d))

/-- Python `str`/f-string rendering of a parameter value. -/
def pyStr : PyVal → String
  | PyVal.int n => toString n
  | PyVal.float q => floatStr q
  | PyVal.bool b => if b then "True" else "False"
  | PyVal.vec l => "[" ++ String.intercalate ", " (l.map floatStr) ++ "]"
  | PyVal.str s => s

/-- Spiral block of `determine_category` (`naming.py`, lines 25-31):
the spiral feature is active when `h_spiral_amp > 0 or
sig_spiral_amp > 0`; its token carries the arm count when
`n_arms > 0`. -/
def spiralTokens (params : Params) : Except Unit (List String) :=
  match pyOr (pyGT0 (params.getD "h_spiral_amp" (PyVal.int 0)))
             (pyGT0 (params.getD "sig_spiral_amp" (PyVal.int 0))) with
  | Except.error e => Except.error e
  | Except.ok false => Except.ok []
  | Except.ok true =>
    let n_arms := params.getD "n_arms" (PyVal.int 0)
    match pyGT0 n_arms with
    | Except.error e => Except.error e
    | Except.ok true => Except.ok ["spiral_" ++ pyStr n_arms ++ "arms"]
    | Except.ok false => Except.ok ["spiral"]

/-- Vortex block (`naming.py`, lines 33-39): the `isinstance` branch
looks only at `h_vortex_amp`; both operands of each `or` are
evaluated with the same element-wise (list) or scalar comparison, and
`or` short-circuits. -/
def hasVortex (params : Params) : Except Unit Bool :=
  let vortex_h := params.getD "h_vortex_amp" (PyVal.vec [0, 0])
  let vortex_sig := params.getD "sig_vortex_amp" (PyVal.vec [0, 0])
  match vortex_h with
  | PyVal.vec _ => pyOr (pyAnyGT0 vortex_h) (pyAnyGT0 vortex_sig)
  | _ => pyOr (pyGT0 vortex_h) (pyGT0 vortex_sig)

/-- Fourier block (`naming.py`, lines 44-53): any non-zero coefficient
in any of the four coefficient vectors, with short-circuiting `or`. -/
def hasFourier (params : Params) : Except Unit Bool :=
  let fourier_h_a := params.getD "h_fourier_aj" (PyVal.vec [0, 0, 0, 0, 0])
  let fourier_h_b := params.getD "h_fourier_bj" (PyVal.vec [0, 0, 0, 0, 0])
  let fourier_sig_a := params.getD "sig_fourier_aj" (PyVal.vec [0, 0, 0, 0, 0])
  let fourier_sig_b := params.getD "sig_fourier_bj" (PyVal.vec [0, 0, 0, 0, 0])
  pyOr (pyAnyNe0 fourier_h_a)
    (pyOr (pyAnyNe0 fourier_h_b)
      (pyOr (pyAnyNe0 fourier_sig_a) (pyAnyNe0 fourier_sig_b)))

/-- `determine_category` from `src/naming.py`: builds the
`active_features` list block by block (spiral, vortex, fourier, warp,
inner edge, damping — in source order), then composes the category
from its length. -/
def determine_category (params : Params) : Except Unit String :=
  match spiralTokens params with
  | Except.error e => Except.error e
  | Except.ok spiralFeats =>
  match hasVortex params with
  | Except.error e => Except.error e
  | Except.ok vortexB =>
  match hasFourier params with
  | Except.error e => Except.error e
  | Except.ok fourierB =>
    let warpB := pyTruthy (params.getD "enable_warp" (PyVal.bool false))
    let innerB := pyTruthy (params.getD "use_inner_edge_shadow" (PyVal.bool false))
    let dampB := pyTruthy (params.getD "use_radial_damping" (PyVal.bool false))
    let active_features :=
      spiralFeats
        ++ (if vortexB then ["vortex"] else [])
        ++ (if fourierB then ["fourier"] else [])
        ++ (if warpB then ["warp"] else [])
        ++ (if innerB then ["inner_edge"] else [])
        ++ (if dampB then ["damping"] else [])
    if active_features.length = 0 then Except.ok "baseline"
    else if active_features.length = 1 then Except.ok (active_features.headD "")
    else Except.ok ("combined_" ++ String.intercalate "_" active_features)

/-- Modelled from the spec (§4.1): the ordered active-token list.
Evaluates the six feature predicates in the fixed order spiral,
vortex, fourier, warp, inner_edge, damping and returns the tokens of
the active ones in that order. -/
def featureTokens (params : Params) : Except Unit (List String) :=
  match spiralTokens params with
  | Except.error e => Except.error e
  | Except.ok spiralFeats =>
  match hasVortex params with
  | Except.error e => Except.error e
  | Except.ok vortexB =>
  match hasFourier params with
  | Except.error e => Except.error e
  | Except.ok fourierB =>
    Except.ok
      (spiralFeats
        ++ (if vortexB then ["vortex"] else [])
        ++ (if fourierB then ["fourier"] else [])
        ++ (if pyTruthy (params.getD "enable_warp" (PyVal.bool false)) then ["warp"] else [])
        ++ (if pyTruthy (params.getD "use_inner_edge_shadow" (PyVal.bool false)) then ["inner_edge"] else [])
        ++ (if pyTruthy (params.getD "use_radial_damping" (PyVal.bool false)) then ["damping"] else []))

/-- Modelled from the spec (§4.1 composition rule): zero tokens →
baseline, one token → the token, several → combined with underscore
join. -/
def categoryOfTokens : List String → String
  | [] => "baseline"
  | [t] => t
  | ts => "combined_" ++ String.intercalate "_" ts

/-- A scalar in the sense of the classifier: a value `v` for which
`v > 0` does not raise. -/
def scalarVal : PyVal → Bool
  | PyVal.int _ => true
  | PyVal.float _ => true
  | PyVal.bool _ => true
  | _ => false

/-- A list value (`isinstance(v, (list, tuple))`). -/
def vecVal : PyVal → Bool
  | PyVal.vec _ => true
  | _ => false

/-- Type discipline under which `determine_category` cannot raise:
spiral amplitudes and arm count are scalars, the two vortex
amplitudes are both lists or both scalars, and the four Fourier
coefficient parameters are lists. -/
def wellTypedParams (p : Params) : Bool :=
  scalarVal (p.getD "h_spiral_amp" (PyVal.int 0))
    && scalarVal (p.getD "sig_spiral_amp" (PyVal.int 0))
    && scalarVal (p.getD "n_arms" (PyVal.int 0))
    && ((vecVal (p.getD "h_vortex_amp" (PyVal.vec [0, 0]))
          && vecVal (p.getD "sig_vortex_amp" (PyVal.vec [0, 0])))
        || (scalarVal (p.getD "h_vortex_amp" (PyVal.vec [0, 0]))
          && scalarVal (p.getD "sig_vortex_amp" (PyVal.vec [0, 0]))))
    && vecVal (p.getD "h_fourier_aj" (PyVal.vec [0, 0, 0, 0, 0]))
    && vecVal (p.getD "h_fourier_bj" (PyVal.vec [0, 0, 0, 0, 0]))
    && vecVal (p.getD "sig_fourier_aj" (PyVal.vec [0, 0, 0, 0, 0]))
    && vecVal (p.getD "sig_fourier_bj" (PyVal.vec [0, 0, 0, 0, 0]))

/-- `Except.ok` test used in the totality statements. -/
def okB {α : Type} : Except Unit α → Bool
  | Except.ok _ => true
  | Except.error _ => false

/-! ## Photon-progress parsing (`src/single_run.py`, line 261)

The compiled pattern is `Photon\s+nr[:.]?\s+(\d+)` with `re.IGNORECASE`
and is applied with `search` (leftmost match).  The pattern is
deterministic: the optional `[:.]` can never profit from backtracking
(a consumed `:` or `.` is not whitespace), so a greedy left-to-right
scan is an exact model. -/

/-- ASCII whitespace characters matched by Python `\s`. -/
def isWS (c : Char) : Bool :=
  c = ' ' || c = '\t' || c = '\n' || c = '\r' || c = '\x0b' || c = '\x0c'

/-- Case-insensitive literal match: consume `pat` from the front of
`s`, returning the rest. -/
def ciEat : List Char → List Char → Option (List Char)
  | [], rest => some rest
  | _ :: _, [] => none
  | p :: ps, c :: cs => if p.toLower = c.toLower then ciEat ps cs else none

/-- `\s+`: at least one whitespace character, consumed greedily. -/
def eatWS1 : List Char → Option (List Char)
  | [] => none
  | c :: cs => if isWS c then some (cs.dropWhile isWS) else none

/-- Numeric value of a digit string (`int` of the captured group). -/
def digitsToNat (ds : List Char) : Nat :=
  ds.foldl (fun a c => a * 10 + (c.toNat - 48)) 0

/-- Attempt to match the photon pattern at the start of the text. -/
def photonMatchAt (l : List Char) : Option Nat :=
  match ciEat "photon".toList l with
  | none => none
  | some r1 =>
  match eatWS1 r1 with
  | none => none
  | some r2 =>
  match ciEat "nr".toList r2 with
  | none => none
  | some r3 =>
  let r4 := match r3 with
    | c :: t => if c = ':' || c = '.' then t else r3
    | [] => r3
  match eatWS1 r4 with
  | none => none
  | some r5 =>
    let ds := r5.takeWhile Char.isDigit
    if ds.isEmpty then none else some (digitsToNat ds)

/-- `re.search`: try the pattern at every position, leftmost first. -/
def photonSearchAux : List Char → Option Nat
  | [] => none
  | c :: t =>
    match photonMatchAt (c :: t) with
    | some n => some n
    | none => photonSearchAux t

/-- `photon_pattern.search(line)`, returning the captured integer. -/
def photonSearch (s : String) : Option Nat :=
  photonSearchAux s.toList

/-- Python `str.strip()`: remove leading and trailing whitespace. -/
def pyStrip (s : String) : String :=
  String.mk (((s.toList.dropWhile isWS).reverse.dropWhile isWS).reverse)

/-! ## Command runner (`run_radmc_command`, `src/single_run.py` 154-317)

Externally visible behaviour is modelled as a trace of events `Ev`
(tracker method calls, persistent-log writes, console prints, process
spawns) together with an `Except` outcome. -/

/-- Exceptions raised by the embedded code. -/
inductive PyExn where
  | fileNotFound (msg : String)
  | runtimeError (msg : String)
  | other (msg : String)
deriving DecidableEq

/-- `str(e)` of an exception: its message. -/
def PyExn.msg : PyExn → String
  | PyExn.fileNotFound m => m
  | PyExn.runtimeError m => m
  | PyExn.other m => m

/-- Observable events of a run: tracker method calls, log writes,
console prints and subprocess spawns, in program order. -/
inductive Ev where
  | logCmd (s : String)
  | logInfo (s : String)
  | logError (s : String)
  | logReturnCode (n : Int)
  | logDuration
  | logPhaseStart (name : String)
  | logPhaseEnd (name : String)
  | printErr (s : String)
  | spawn (args : List String)
  | trackerStart
  | trackerStop
  | startPhase (name : String)
  | completePhase (name : String)
  | trackerLog (s : String)
  | setPhaseTotal (n : Int)
  | updateProgress (n : Nat)
  | printSummary
  | suppressOn
  | suppressOff
deriving DecidableEq

/-- Which tracker class arrived (`isinstance(tracker, RawTracker)`). -/
inductive TrackerKind where
  | raw
  | advanced
deriving DecidableEq

/-- The `total_photons` argument: `None`, a Python number, or a string
(converted with `int(float(...))`). -/
inductive TotalArg where
  | pynone
  | pyint (n : Int)
  | pystr (s : String)
deriving DecidableEq

/-- Truthiness of `total_photons` (`if total_photons:`). -/
def totalTruthy : TotalArg → Bool
  | TotalArg.pynone => false
  | TotalArg.pyint n => n != 0
  | TotalArg.pystr s => s != ""

/-- Exponent suffix of a Python float literal (`e`/`E`, optional sign,
at least one digit), with the remaining text. -/
def parseExp : List Char → Option (Int × List Char)
  | [] => none
  | c :: t =>
    if c = 'e' || c = 'E' then
      let st : Int × List Char :=
        match t with
        | '+' :: u => (1, u)
        | '-' :: u => (-1, u)
        | _ => (1, t)
      let ed := st.2.takeWhile Char.isDigit
      if ed.isEmpty then none
      else some (st.1 * (digitsToNat ed : Int), st.2.dropWhile Char.isDigit)
    else none

/-- Python `float(s)` on finite decimal/scientific literals. -/
def parsePyFloat (s : String) : Option Rat :=
  let l := s.toList.dropWhile isWS
  let sl : Rat × List Char :=
    match l with
    | '+' :: t => (1, t)
    | '-' :: t => (-1, t)
    | _ => (1, l)
  let ip := sl.2.takeWhile Char.isDigit
  let l1 := sl.2.dropWhile Char.isDigit
  let fl : List Char × List Char :=
    match l1 with
    | '.' :: t => (t.takeWhile Char.isDigit, t.dropWhile Char.isDigit)
    | _ => ([], l1)
  if ip.isEmpty && fl.1.isEmpty then none
  else
    let mant : Rat :=
      (digitsToNat ip : Rat) + (digitsToNat fl.1 : Rat) / ((10 : Rat) ^ fl.1.length)
    match fl.2 with
    | [] => some (sl.1 * mant)
    | c :: _ =>
      if c = 'e' || c = 'E' then
        match parseExp fl.2 with
        | none => none
        | some er =>
          if (er.2.dropWhile isWS).isEmpty then
            some (sl.1 * mant * (10 : Rat) ^ er.1)
          else none
      else if (fl.2.dropWhile isWS).isEmpty then some (sl.1 * mant)
      else none

/-- Python `int(q)`: truncation toward zero. -/
def pyIntTrunc (q : Rat) : Int :=
  q.num.tdiv (q.den : Int)

/-- Events of the `total_photons` preamble (`single_run.py` 247-254):
falsy totals are skipped, numeric totals set the phase total, and an
unparsable string logs a warning and leaves progress indeterminate. -/
def totalEvents : TotalArg → List Ev
  | TotalArg.pynone => []
  | TotalArg.pyint n => if n != 0 then [Ev.setPhaseTotal n] else []
  | TotalArg.pystr s =>
    if s = "" then []
    else
      match parsePyFloat s with
      | some q => [Ev.setPhaseTotal (pyIntTrunc q)]
      | none =>
        [Ev.trackerLog ("[yellow]Warning: Could not parse total_photons \x27" ++ s
          ++ "\x27.[/yellow]")]

/-- Per-line handling of the captured output (`single_run.py` 279-297):
a non-empty stripped line is forwarded to `tracker.log` wrapped in dim
markup, and — only while a truthy total is being tracked — a photon
match updates the progress counter. -/
def processLine (tracking : Bool) (line : String) : List Ev :=
  let clean := pyStrip line
  if clean = "" then []
  else
    Ev.trackerLog ("[dim]" ++ clean ++ "[/dim]") ::
      (if tracking then
        match photonSearch clean with
        | some n => [Ev.updateProgress n]
        | none => []
      else [])

/-- Behaviour of one external-solver invocation, fixed by the
environment: whether each executable resolves on the search path, the
exit status, and the captured output lines (advanced mode). -/
structure CmdEnv where
  which : String → Bool
  exitCode : Int
  lines : List String

/-- `run_radmc_command` from `src/single_run.py`.  The command string
is modelled post-`shlex.split` as its argument list (`cmd_args`); the
logged/raised command text is the space-joined form.  Raw mode streams
through `subprocess.call`; advanced mode captures line by line. -/
def run_radmc_command (kind : TrackerKind) (cmd_args : List String)
    (env : CmdEnv) (total_photons : TotalArg) : List Ev × Except PyExn Unit :=
  let cmdStr := String.intercalate " " cmd_args
  match cmd_args with
  | [] => ([Ev.logCmd cmdStr], Except.error (PyExn.other "IndexError"))
  | exe :: _ =>
    if env.which exe then
      match kind with
      | TrackerKind.raw =>
        let evs := [Ev.logCmd cmdStr, Ev.spawn cmd_args,
          Ev.logReturnCode env.exitCode, Ev.logDuration]
        if env.exitCode != 0 then
          (evs ++ [Ev.logError ("Command failed with return code "
              ++ toString env.exitCode ++ ": " ++ cmdStr)],
           Except.error (PyExn.runtimeError ("Command failed: " ++ cmdStr)))
        else (evs, Except.ok ())
      | TrackerKind.advanced =>
        let evs := [Ev.logCmd cmdStr] ++ totalEvents total_photons
          ++ [Ev.spawn cmd_args]
          ++ (env.lines.map (processLine (totalTruthy total_photons))).flatten
          ++ [Ev.logReturnCode env.exitCode, Ev.logDuration]
        if env.exitCode != 0 then
          (evs ++ [Ev.trackerLog ("[red bold]Process failed with code "
              ++ toString env.exitCode ++ "[/red bold]"),
            Ev.logError ("Command failed with return code "
              ++ toString env.exitCode ++ ": " ++ cmdStr)],
           Except.error (PyExn.runtimeError ("Command failed: " ++ cmdStr)))
        else (evs, Except.ok ())
    else
      ([Ev.logCmd cmdStr,
        Ev.printErr ("Error: Command \x27" ++ exe ++ "\x27 not found!"),
        Ev.logError ("Command not found: " ++ exe)],
       Except.error (PyExn.fileNotFound ("Command not found: " ++ exe)))

/-- The `update_progress` calls of a trace, in order. -/
def updatesOf (t : List Ev) : List Nat :=
  t.filterMap (fun e => match e with
    | Ev.updateProgress n => some n
    | _ => none)

/-- The phase name of a `start_phase` call, if the event is one. -/
def startPhaseName : Ev → Option String
  | Ev.startPhase n => some n
  | _ => none

/-- The `start_phase` calls of a trace, in order. -/
def startPhasesOf (t : List Ev) : List String :=
  t.filterMap startPhaseName

/-- Is the event a `tracker.log` call? -/
def isTrackerLogEv : Ev → Bool
  | Ev.trackerLog _ => true
  | _ => false

/-- The event kinds that `run_radmc_command` can emit: command/return
logging, console error print, process spawn, tracker log,
set-phase-total and update-progress.  In particular it never starts or
completes a phase, starts or stops the tracker, or touches the
descriptor silencer. -/
def cmdEvKind : Ev → Bool
  | Ev.logCmd _ => true
  | Ev.printErr _ => true
  | Ev.logError _ => true
  | Ev.spawn _ => true
  | Ev.logReturnCode _ => true
  | Ev.logDuration => true
  | Ev.trackerLog _ => true
  | Ev.setPhaseTotal _ => true
  | Ev.updateProgress _ => true
  | _ => false

/-! ## Phase orchestrator (`run_single_simulation`, `src/single_run.py` 320-584)

A run is a trace of events together with an `Except` outcome.
Third-party calls (radmc3dPy setup, file I/O) are fallible steps whose
outcome is fixed by oracles in the environment; the solver invocations
go through `run_radmc_command` above. -/

/-- An effectful computation: the events it emits and its outcome. -/
def Proc (α : Type) : Type := List Ev × Except PyExn α

/-- Sequencing with Python exception flow: if the first computation
raises, the second never runs. -/
def pseq (x y : Proc Unit) : Proc Unit :=
  match x.2 with
  | Except.ok _ => (x.1 ++ y.1, y.2)
  | Except.error e => (x.1, Except.error e)

/-- `try ... except Exception as e: <handler>`. -/
def phandle (x : Proc Unit) (h : PyExn → Proc Unit) : Proc Unit :=
  match x.2 with
  | Except.ok _ => (x.1, Except.ok ())
  | Except.error e => (x.1 ++ (h e).1, (h e).2)

/-- Emit events and succeed. -/
def emit (es : List Ev) : Proc Unit := (es, Except.ok ())

/-- A third-party step whose success or failure is fixed by an oracle. -/
def step (o : Option PyExn) : Proc Unit :=
  ([], match o with
    | some e => Except.error e
    | none => Except.ok ())

/-- The `suppress_output()` context manager around an in-process call,
engaged only when `use_silencer` holds (`single_run.py` 381-385 etc.):
descriptors are redirected on entry and restored on exit even when the
body raises. -/
def withSuppress (use : Bool) (body : Proc Unit) : Proc Unit :=
  if use then ([Ev.suppressOn] ++ body.1 ++ [Ev.suppressOff], body.2)
  else body

/-- Tracker selection (`single_run.py` 357-365): the advanced tracker
and the silencer exactly when `ui_mode == 'advanced'`, otherwise the
raw tracker without silencer. -/
def select_ui (ui_mode : String) : TrackerKind × Bool :=
  if ui_mode = "advanced" then (TrackerKind.advanced, true)
  else (TrackerKind.raw, false)

/-- Environment of one orchestrated run: resolution of executables,
outcomes of the third-party phases and of the three solver commands.
Parameter-dict lookups performed by the configure phase are folded
into its oracle. -/
structure OrcEnv where
  which : String → Bool
  setupExn : Option PyExn
  configureExn : Option PyExn
  mcthermExit : Int
  mcthermLines : List String
  sedExit : Int
  sedLines : List String
  imageExit : Int
  imageLines : List String
  imageIOExn : Option PyExn
  saveExn : Option PyExn
  exportFails : Bool

/-- Arguments of `run_single_simulation` that shape the trace; command
parameters drawn from `params` are carried in already-rendered form. -/
structure SimArgs where
  ui_mode : String
  make_images : Bool
  threads : Nat
  nphot : TotalArg
  nphot_spec : TotalArg
  incl : Int
  npix : Int
  sizeau : Int
  phi : Int
  nostar : Bool
  wavelength : String

/-- `radmc3d mctherm setthreads <threads> sloppy`, split. -/
def mcthermCmd (threads : Nat) : List String :=
  ["radmc3d", "mctherm", "setthreads", toString threads, "sloppy"]

/-- `radmc3d sed incl <incl> setthreads <threads> sloppy`, split. -/
def sedCmd (incl : Int) (threads : Nat) : List String :=
  ["radmc3d", "sed", "incl", toString incl, "setthreads", toString threads, "sloppy"]

/-- The image command of phase 5, split (`single_run.py` 506-516). -/
def imageCmd (a : SimArgs) : List String :=
  ["radmc3d", "image", "npix", toString a.npix, "incl", toString a.incl,
   "sizeau", toString a.sizeau, "lambda", a.wavelength, "phi", toString a.phi,
   "setthreads", toString a.threads]
    ++ (if a.nostar then ["nostar"] else [])

/-- `run_single_simulation` from `src/single_run.py`: tracker/silencer
selection, the fixed phase sequence with per-phase logging and tracker
notifications, the swallowed logbook call, and the exception handler
that stops the tracker, logs the error, prints it and re-raises. -/
def run_single_simulation (a : SimArgs) (env : OrcEnv) : Proc Unit :=
  let sel := select_ui a.ui_mode
  let kind := sel.1
  let use_silencer := sel.2
  let body :=
    pseq (emit [Ev.startPhase "Setup", Ev.logPhaseStart "Setup",
        Ev.logInfo "Starting RADMC-3D simulation"])
    (pseq (withSuppress use_silencer (step env.setupExn))
    (pseq (emit [Ev.logPhaseEnd "Setup", Ev.completePhase "Setup"])
    (pseq (emit [Ev.startPhase "Configure Model", Ev.logPhaseStart "Configure Model",
        Ev.trackerLog "Writing input files...",
        Ev.logInfo "Writing RADMC-3D input files and grid setup"])
    (pseq (withSuppress use_silencer (step env.configureExn))
    (pseq (emit [Ev.logPhaseEnd "Configure Model", Ev.completePhase "Configure Model"])
    (pseq (emit [Ev.startPhase "MC Thermal", Ev.logPhaseStart "MC Thermal"])
    (pseq (run_radmc_command kind (mcthermCmd a.threads)
        ⟨env.which, env.mcthermExit, env.mcthermLines⟩ a.nphot)
    (pseq (emit [Ev.logPhaseEnd "MC Thermal", Ev.completePhase "MC Thermal"])
    (pseq (emit [Ev.startPhase "SED Calculation", Ev.logPhaseStart "SED Calculation"])
    (pseq (run_radmc_command kind (sedCmd a.incl a.threads)
        ⟨env.which, env.sedExit, env.sedLines⟩ a.nphot_spec)
    (pseq (emit [Ev.logPhaseEnd "SED Calculation", Ev.completePhase "SED Calculation"])
    (pseq (if a.make_images then
        pseq (emit [Ev.startPhase "Generate Image", Ev.logPhaseStart "Generate Image",
            Ev.trackerLog ("Computing image at " ++ a.wavelength ++ " µm..."),
            Ev.logInfo ("Computing image at wavelength " ++ a.wavelength ++ " µm")])
        (pseq (run_radmc_command kind (imageCmd a)
            ⟨env.which, env.imageExit, env.imageLines⟩ TotalArg.pynone)
        (pseq (step env.imageIOExn)
          (emit [Ev.logPhaseEnd "Generate Image", Ev.completePhase "Generate Image"])))
      else emit [])
    (pseq (emit [Ev.startPhase "Save Files", Ev.logPhaseStart "Save Files",
        Ev.logInfo "Reading output files and saving to run directory"])
    (pseq (step env.saveExn)
    (pseq (emit [Ev.logPhaseEnd "Save Files", Ev.completePhase "Save Files",
        Ev.trackerStop])
    (pseq (phandle (step (if env.exportFails then some (PyExn.other "export failed")
          else none))
        (fun _ => emit []))
      (emit [Ev.printSummary])))))))))))))))))
  phandle (pseq (emit [Ev.trackerStart]) body)
    (fun e => ([Ev.trackerStop, Ev.logError ("Simulation failed: " ++ e.msg),
      Ev.printErr ("Simulation failed: " ++ e.msg)], Except.error e))

/-! ## `RawTracker` (`src/single_run.py` 86-147)

Every method is a pure function from its arguments to the list of
`print` payloads it emits; all are total, so none raises. -/

/-- `RawTracker.start`: no output. -/
def RawTracker.start : List String := []

/-- `RawTracker.stop`: no output. -/
def RawTracker.stop : List String := []

/-- `RawTracker.start_phase`: one print with a phase header. -/
def RawTracker.start_phase (name : String) : List String :=
  ["\n>>> Starting Phase: " ++ name]

/-- `RawTracker.complete_phase`: one print with a phase footer. -/
def RawTracker.complete_phase (name : String) : List String :=
  [">>> Completed Phase: " ++ name ++ "\n"]

/-- `RawTracker.log`: no output. -/
def RawTracker.log (_msg : String) : List String := []

/-- `RawTracker.set_phase_total`: no output. -/
def RawTracker.set_phase_total (_n : Int) : List String := []

/-- `RawTracker.update_progress`: no output. -/
def RawTracker.update_progress (_n : Int) : List String := []

/-- `RawTracker.print_summary`: no output. -/
def RawTracker.print_summary : List String := []

/-! ## `AdvancedPhaseTracker` (`src/terminal_ui.py` 123-239)

The rich `Progress` tasks are modelled by their description, total,
completed count and visibility; wall-clock readings are passed in. -/

/-- One rich progress task. -/
structure RichTask where
  description : String
  total : Option Int
  completed : Int
  visible : Bool
deriving DecidableEq

/-- Tracker state: phase list, time estimates, indices, recorded
per-phase durations and the two progress tasks. -/
structure AdvState where
  phases : List String
  estimated_times : List (String × Option Rat)
  current_phase_idx : Int
  phase_start_time : Option Rat
  phase_times : List (String × Rat)
  overall_task : RichTask
  phase_task : RichTask
deriving DecidableEq

/-- Association-list lookup (dict `.get`). -/
def lookupQ (l : List (String × Rat)) (k : String) : Option Rat :=
  (l.find? (fun p => p.1 == k)).map (fun p => p.2)

/-- Association-list store (dict item assignment): replace the first
binding of `k`, or append a new one. -/
def setQ : List (String × Rat) → String → Rat → List (String × Rat)
  | [], k, v => [(k, v)]
  | p :: t, k, v => if p.1 = k then (k, v) :: t else p :: setQ t k v

/-- `AdvancedPhaseTracker.__init__` (phases, estimates): overall task
bounded by the number of phases, phase task hidden and indeterminate. -/
def AdvancedPhaseTracker.init (phases : List String)
    (estimated_times : List (String × Option Rat)) : AdvState :=
  { phases := phases,
    estimated_times := estimated_times,
    current_phase_idx := -1,
    phase_start_time := none,
    phase_times := [],
    overall_task := ⟨"Total", some (phases.length : Int), 0, true⟩,
    phase_task := ⟨"Waiting...", none, 0, false⟩ : AdvState }

/-- Escape replacement `message.replace("[", "\\[")` at character
level. -/
def replaceBrackets : List Char → List Char
  | [] => []
  | c :: t =>
    if c = '[' then '\\' :: '[' :: replaceBrackets t
    else c :: replaceBrackets t

/-- `AdvancedPhaseTracker.log`: the rendered console line.  Brackets
are escaped only when the message contains `[` but no `]`
(`terminal_ui.py` 178-182); the line is printed with a two-space
indent. -/
def AdvancedPhaseTracker.logRender (message : String) : String :=
  let message :=
    if message.toList.contains '[' && !(message.toList.contains ']') then
      String.mk (replaceBrackets message.toList)
    else message
  "  " ++ message

/-- Every `[` in the text is immediately preceded by a backslash, so
none of them can open a markup directive. -/
def bracketsEscaped : List Char → Bool
  | [] => true
  | c :: t =>
    if c = '[' then false
    else if c = '\\' then
      match t with
      | [] => true
      | c2 :: r => if c2 = '[' then bracketsEscaped r else bracketsEscaped (c2 :: r)
    else bracketsEscaped t

/-- `list.index(x)`: position of the first occurrence, `ValueError`
when absent. -/
def pyIndex (l : List String) (x : String) : Except Unit Nat :=
  if x ∈ l then Except.ok (l.indexOf x) else Except.error ()

/-- Truthiness of the stored phase start time
(`if self.phase_start_time:`). -/
def timeTruthy : Option Rat → Bool
  | some t => t != 0
  | none => false

/-- `AdvancedPhaseTracker.start_phase` (`terminal_ui.py` 192-208):
resolve the phase index, stamp the start time, advance the overall
task to the index, reset the phase task to an indeterminate visible
spinner, and log a header line. -/
def AdvancedPhaseTracker.start_phase (s : AdvState) (now : Rat)
    (phase_name : String) : Except Unit (AdvState × List String) :=
  match pyIndex s.phases phase_name with
  | Except.error e => Except.error e
  | Except.ok idx =>
    let estimated := (s.estimated_times.find? (fun p => p.1 == phase_name)).map (fun p => p.2)
    let desc := "[yellow]" ++ phase_name ++ "[/yellow]"
      ++ (match estimated with
        | some (some q) => if q != 0 then " (~" ++ floatStr q ++ " min)" else ""
        | _ => "")
    Except.ok
      ({ s with
          current_phase_idx := (idx : Int),
          phase_start_time := some now,
          overall_task := { s.overall_task with completed := (idx : Int) },
          phase_task := ⟨desc, none, 0, true⟩ },
       [AdvancedPhaseTracker.logRender
         ("[bold bright_green]→[/bold bright_green] Starting: [bold bright_green]"
           ++ phase_name ++ "[/bold bright_green]")])

/-- `AdvancedPhaseTracker.set_phase_total`: bound the phase task by
`total_steps` and restart its count. -/
def AdvancedPhaseTracker.set_phase_total (s : AdvState) (total_steps : Int) : AdvState :=
  { s with phase_task := { s.phase_task with total := some total_steps, completed := 0 } }

/-- `AdvancedPhaseTracker.update_progress`: set the phase-task count. -/
def AdvancedPhaseTracker.update_progress (s : AdvState) (stp : Int) : AdvState :=
  { s with phase_task := { s.phase_task with completed := stp } }

/-- `AdvancedPhaseTracker.complete_phase` (`terminal_ui.py` 210-219):
record the elapsed time when a start time was stamped, advance the
overall task to the current index plus one, and set the phase task
count to the literal `100`. -/
def AdvancedPhaseTracker.complete_phase (s : AdvState) (now : Rat)
    (phase_name : String) : AdvState × List String :=
  let rec1 :=
    if timeTruthy s.phase_start_time then
      let duration := now - (s.phase_start_time.getD 0)
      ({ s with phase_times := setQ s.phase_times phase_name duration },
       [AdvancedPhaseTracker.logRender
         ("[bold bright_green]✓[/bold bright_green] Done: [bold]" ++ phase_name
           ++ "[/bold] [bright_green](" ++ toString (pyIntTrunc duration)
           ++ "s)[/bright_green]")])
    else (s, ([] : List String))
  ({ rec1.1 with
      overall_task := { rec1.1.overall_task with completed := rec1.1.current_phase_idx + 1 },
      phase_task := { rec1.1.phase_task with completed := 100 } },
   rec1.2)

/-! ## `suppress_output` (`src/single_run.py` 65-79)

The process file-descriptor table is a map from descriptor number to
the identity of the open target.  `dup` allocation is modelled by
explicit fresh descriptor numbers with freshness hypotheses in the
theorems.  The wrapped body may raise; the `finally` block and the
`with open(...)` exit always run. -/

/-- Descriptor tables: `none` means the descriptor is closed. -/
def FDTable : Type := Nat → Option Nat

/-- Point update of the descriptor table (`dup2`, `close`, `open`). -/
def fdUpdate (s : FDTable) (k : Nat) (v : Option Nat) : FDTable :=
  fun m => if m = k then v else s m

/-- The full `suppress_output` context: open devnull on `dn`, save fds
1 and 2 to `o1`/`o2`, redirect both to devnull, run the body, then in
`finally` restore and close the saved copies, and close devnull when
the `with` block exits.  The body outcome passes through unchanged. -/
def suppress_output (s : FDTable) (dn o1 o2 : Nat) (devnullT : Nat)
    (body : Except PyExn Unit) : FDTable × Except PyExn Unit :=
  let s1 := fdUpdate s dn (some devnullT)
  let s2 := fdUpdate s1 o1 (s1 1)
  let s3 := fdUpdate s2 o2 (s2 2)
  let s4 := fdUpdate s3 1 (s3 dn)
  let s5 := fdUpdate s4 2 (s4 dn)
  let s6 := fdUpdate s5 1 (s5 o1)
  let s7 := fdUpdate s6 2 (s6 o2)
  let s8 := fdUpdate s7 o1 none
  let s9 := fdUpdate s8 o2 none
  let s10 := fdUpdate s9 dn none
  (s10, body)

/-! ## Concrete fixtures used by the closed theorems below. -/

/-- A run environment whose MC Thermal solver invocation exits with
status 1; everything else succeeds. -/
def exEnvMcFail : OrcEnv :=
  ⟨fun _ => true, none, none, 1, [], 0, [], 0, [], none, none, false⟩

/-- Raw-mode arguments of a run. -/
def exArgsRaw : SimArgs :=
  ⟨"raw", false, 32, TotalArg.pyint 1000000, TotalArg.pyint 10000, 45, 200, 300, 0,
   false, "2.2"⟩

/-- An environment in which every phase succeeds. -/
def exEnvOK : OrcEnv :=
  ⟨fun _ => true, none, none, 0, [], 0, [], 0, [], none, none, false⟩

/-- A concrete descriptor table: stdin/stdout/stderr open, the rest
closed. -/
def exFDTable : FDTable :=
  fun n => if n = 0 then some 100 else if n = 1 then some 101
    else if n = 2 then some 102 else none

/-- The tracker state reached from a two-phase tracker by
`start_phase` of `"Setup"` at time 2. -/
def exStartedState : AdvState :=
  { phases := ["Setup", "Save Files"],
    estimated_times := [],
    current_phase_idx := 0,
    phase_start_time := some 2,
    phase_times := [],
    overall_task := ⟨"Total", some 2, 0, true⟩,
    phase_task := ⟨"[yellow]Setup[/yellow]", none, 0, true⟩ }

/-- Final tracker state of the sequence `start_phase "Setup"` at time
1, `set_phase_total 200`, `complete_phase "Setup"` at time 5, on a
single-phase tracker. -/
def c9final : AdvState :=
  match AdvancedPhaseTracker.start_phase (AdvancedPhaseTracker.init ["Setup"] []) 1 "Setup" with
  | Except.ok sp =>
    (AdvancedPhaseTracker.complete_phase
      (AdvancedPhaseTracker.set_phase_total sp.1 200) 5 "Setup").1
  | Except.error _ => AdvancedPhaseTracker.init [] []

/-! ## Helper lemmas -/

/-- The length-branching of `determine_category` computes exactly the
composition rule. -/
theorem cat_branch (ts : List String) :
    (if ts.length = 0 then (Except.ok "baseline" : Except Unit String)
     else if ts.length = 1 then Except.ok (ts.headD "")
     else Except.ok ("combined_" ++ String.intercalate "_" ts))
    = Except.ok (categoryOfTokens ts) := by
  match ts with
  | [] => rfl
  | [t] => rfl
  | a :: b :: r => rfl

/-- Every branch of the length-based composition succeeds. -/
theorem okB_branch (ts : List String) :
    okB (if ts.length = 0 then (Except.ok "baseline" : Except Unit String)
     else if ts.length = 1 then Except.ok (ts.headD "")
     else Except.ok ("combined_" ++ String.intercalate "_" ts)) = true := by
  match ts with
  | [] => rfl
  | [t] => rfl
  | a :: b :: r => rfl

/-- A scalar value compares against zero without raising. -/
theorem pyGT0_ok (v : PyVal) (h : scalarVal v = true) :
    ∃ b, pyGT0 v = Except.ok b := by
  cases v with
  | int n => exact ⟨_, rfl⟩
  | float q => exact ⟨_, rfl⟩
  | bool b => exact ⟨_, rfl⟩
  | vec l => simp [scalarVal] at h
  | str s => simp [scalarVal] at h

/-- A list value iterates under `any(v > 0 ...)` without raising. -/
theorem pyAnyGT0_ok (v : PyVal) (h : vecVal v = true) :
    ∃ b, pyAnyGT0 v = Except.ok b := by
  cases v with
  | vec l => exact ⟨_, rfl⟩
  | int n => simp [vecVal] at h
  | float q => simp [vecVal] at h
  | bool b => simp [vecVal] at h
  | str s => simp [vecVal] at h

/-- A list value iterates under `any(v != 0 ...)` without raising. -/
theorem pyAnyNe0_ok (v : PyVal) (h : vecVal v = true) :
    ∃ b, pyAnyNe0 v = Except.ok b := by
  cases v with
  | vec l => exact ⟨_, rfl⟩
  | int n => simp [vecVal] at h
  | float q => simp [vecVal] at h
  | bool b => simp [vecVal] at h
  | str s => simp [vecVal] at h

/-- `or` of two successful boolean computations succeeds. -/
theorem pyOr_ok_ok (a b : Bool) :
    pyOr (Except.ok a) (Except.ok b) = Except.ok (a || b) := by
  cases a <;> rfl

/-- The spiral block succeeds when the two amplitudes and the arm
count are scalars. -/
theorem spiralTokens_ok (p : Params)
    (ha : scalarVal (p.getD "h_spiral_amp" (PyVal.int 0)) = true)
    (hb : scalarVal (p.getD "sig_spiral_amp" (PyVal.int 0)) = true)
    (hn : scalarVal (p.getD "n_arms" (PyVal.int 0)) = true) :
    ∃ ts, spiralTokens p = Except.ok ts := by
  obtain ⟨b1, hb1⟩ := pyGT0_ok _ ha
  obtain ⟨b2, hb2⟩ := pyGT0_ok _ hb
  obtain ⟨b3, hb3⟩ := pyGT0_ok _ hn
  simp only [spiralTokens, hb1, hb2, pyOr_ok_ok, hb3]
  cases (b1 || b2) with
  | false => exact ⟨[], rfl⟩
  | true =>
    cases b3 with
    | false => exact ⟨_, rfl⟩
    | true => exact ⟨_, rfl⟩

/-- The vortex block succeeds when the two amplitudes are both lists
or both scalars. -/
theorem hasVortex_ok (p : Params)
    (h : (vecVal (p.getD "h_vortex_amp" (PyVal.vec [0, 0])) = true
           ∧ vecVal (p.getD "sig_vortex_amp" (PyVal.vec [0, 0])) = true)
       ∨ (scalarVal (p.getD "h_vortex_amp" (PyVal.vec [0, 0])) = true
           ∧ scalarVal (p.getD "sig_vortex_amp" (PyVal.vec [0, 0])) = true)) :
    ∃ b, hasVortex p = Except.ok b := by
  rcases h with ⟨hv1, hv2⟩ | ⟨hs1, hs2⟩
  · obtain ⟨c2, hc2⟩ := pyAnyGT0_ok _ hv2
    cases hval : p.getD "h_vortex_amp" (PyVal.vec [0, 0]) with
    | vec l =>
      simp only [hasVortex, hval]
      rw [hc2,
        show pyAnyGT0 (PyVal.vec l) = Except.ok (l.any (fun q => decide (0 < q))) from rfl,
        pyOr_ok_ok]
      exact ⟨_, rfl⟩
    | int n => rw [hval] at hv1; simp [vecVal] at hv1
    | float q => rw [hval] at hv1; simp [vecVal] at hv1
    | bool b => rw [hval] at hv1; simp [vecVal] at hv1
    | str s => rw [hval] at hv1; simp [vecVal] at hv1
  · obtain ⟨c1, hc1⟩ := pyGT0_ok _ hs1
    obtain ⟨c2, hc2⟩ := pyGT0_ok _ hs2
    cases hval : p.getD "h_vortex_amp" (PyVal.vec [0, 0]) with
    | vec l => rw [hval] at hs1; simp [scalarVal] at hs1
    | int n =>
      rw [hval] at hc1
      simp only [hasVortex, hval, hc1, hc2, pyOr_ok_ok]
      exact ⟨_, rfl⟩
    | float q =>
      rw [hval] at hc1
      simp only [hasVortex, hval, hc1, hc2, pyOr_ok_ok]
      exact ⟨_, rfl⟩
    | bool b =>
      rw [hval] at hc1
      simp only [hasVortex, hval, hc1, hc2, pyOr_ok_ok]
      exact ⟨_, rfl⟩
    | str s => rw [hval] at hs1; simp [scalarVal] at hs1

/-- The Fourier block succeeds when the four coefficient parameters
are lists. -/
theorem hasFourier_ok (p : Params)
    (h1 : vecVal (p.getD "h_fourier_aj" (PyVal.vec [0, 0, 0, 0, 0])) = true)
    (h2 : vecVal (p.getD "h_fourier_bj" (PyVal.vec [0, 0, 0, 0, 0])) = true)
    (h3 : vecVal (p.getD "sig_fourier_aj" (PyVal.vec [0, 0, 0, 0, 0])) = true)
    (h4 : vecVal (p.getD "sig_fourier_bj" (PyVal.vec [0, 0, 0, 0, 0])) = true) :
    ∃ b, hasFourier p = Except.ok b := by
  obtain ⟨b1, hb1⟩ := pyAnyNe0_ok _ h1
  obtain ⟨b2, hb2⟩ := pyAnyNe0_ok _ h2
  obtain ⟨b3, hb3⟩ := pyAnyNe0_ok _ h3
  obtain ⟨b4, hb4⟩ := pyAnyNe0_ok _ h4
  simp only [hasFourier, hb1, hb2, hb3, hb4, pyOr_ok_ok]
  exact ⟨_, rfl⟩

/-! ## Claim theorems -/

/-- C3: `determine_category` composes its result from the active
feature tokens in the fixed predicate-evaluation order spiral, vortex,
fourier, warp, inner_edge, damping (the order of `featureTokens`,
which is independent of the insertion order of the parameter map):
zero active tokens give `baseline`, one gives that token, several give
`combined_` with the tokens joined by underscores.  In particular
simultaneous spiral and warp activation — even with warp inserted
first — yields exactly `combined_spiral_warp`. -/
theorem determine_category_composition :
    (∀ p : Params,
      determine_category p = Except.map categoryOfTokens (featureTokens p)) ∧
    determine_category
        [("enable_warp", PyVal.bool true), ("h_spiral_amp", PyVal.int 1)]
      = Except.ok "combined_spiral_warp" := by
  constructor
  · intro p
    unfold determine_category featureTokens
    cases hsp : spiralTokens p with
    | error e => rfl
    | ok sf =>
      cases hv : hasVortex p with
      | error e => rfl
      | ok vb =>
        cases hf : hasFourier p with
        | error e => rfl
        | ok fb => exact cat_branch _
  · decide

/-- C4 counterexample: `determine_category` does raise on a parameter
mapping in which the height vortex amplitude is a vector but the
surface-density vortex amplitude is a scalar — the `isinstance` branch
inspects only the former, and iterating the scalar raises
`TypeError`. -/
theorem determine_category_raises_cx :
    determine_category
        [("h_vortex_amp", PyVal.vec [0, 0]), ("sig_vortex_amp", PyVal.int 5)]
      = Except.error () := by decide

/-- C4 (amended): `determine_category` raises no exception provided
the feature parameters are type-consistent — spiral amplitudes and arm
count scalars, the two vortex amplitudes both lists or both scalars,
and the four Fourier coefficient parameters lists; absent parameters
default to inactive values, which satisfy this discipline. -/
theorem determine_category_total_when_welltyped (p : Params)
    (h : wellTypedParams p = true) :
    okB (determine_category p) = true := by
  unfold wellTypedParams at h
  simp only [Bool.and_eq_true, Bool.or_eq_true] at h
  obtain ⟨⟨⟨⟨⟨⟨⟨ha, hb⟩, hn⟩, hv⟩, hf1⟩, hf2⟩, hf3⟩, hf4⟩ := h
  obtain ⟨ts, hts⟩ := spiralTokens_ok p ha hb hn
  obtain ⟨vb, hvb⟩ := hasVortex_ok p hv
  obtain ⟨fb, hfb⟩ := hasFourier_ok p hf1 hf2 hf3 hf4
  unfold determine_category
  rw [hts, hvb, hfb]
  exact okB_branch _

/-- C4 witness: the empty parameter mapping is well-typed and is
classified without an exception. -/
theorem determine_category_total_when_welltyped_witness :
    wellTypedParams ([] : Params) = true
      ∧ okB (determine_category ([] : Params)) = true :=
  ⟨by decide, determine_category_total_when_welltyped ([] : Params) (by decide)⟩

/-- C7: for the passthrough tracker, `start`, `stop`, `log`,
`set_phase_total`, `update_progress` and `print_summary` produce no
output, while `start_phase` and `complete_phase` each print exactly
one marker line; all eight operations are total functions, so none of
them can raise. -/
theorem rawtracker_contract :
    RawTracker.start = ([] : List String)
      ∧ RawTracker.stop = ([] : List String)
      ∧ (∀ m, RawTracker.log m = [])
      ∧ (∀ n, RawTracker.set_phase_total n = [])
      ∧ (∀ n, RawTracker.update_progress n = [])
      ∧ RawTracker.print_summary = ([] : List String)
      ∧ (∀ name, RawTracker.start_phase name = ["\n>>> Starting Phase: " ++ name])
      ∧ (∀ name, (RawTracker.complete_phase name).length = 1) :=
  ⟨rfl, rfl, fun _ => rfl, fun _ => rfl, fun _ => rfl, rfl, fun _ => rfl, fun _ => rfl⟩

/-- `replaceBrackets` never yields a leading `[`. -/
theorem replaceBrackets_head_ne (t : List Char) :
    ∀ r, replaceBrackets t ≠ '[' :: r := by
  intro r
  cases t with
  | nil => simp [replaceBrackets]
  | cons c t2 =>
    by_cases hc : c = '['
    · simp [replaceBrackets, hc]
    · simp [replaceBrackets, hc]

/-- After the escape replacement, every `[` is escaped. -/
theorem bracketsEscaped_replaceBrackets (l : List Char) :
    bracketsEscaped (replaceBrackets l) = true := by
  induction l with
  | nil => rfl
  | cons c t ih =>
    by_cases hc : c = '['
    · subst hc
      rw [show replaceBrackets ('[' :: t) = '\\' :: '[' :: replaceBrackets t from by
        simp [replaceBrackets]]
      simpa [bracketsEscaped] using ih
    · rw [show replaceBrackets (c :: t) = c :: replaceBrackets t from by
        simp [replaceBrackets, hc]]
      cases hrep : replaceBrackets t with
      | nil => simp [bracketsEscaped, hc]
      | cons c2 r =>
        have hc2 : c2 ≠ '[' := by
          intro h
          subst h
          exact replaceBrackets_head_ne t r hrep
        by_cases hb : c = '\\'
        · subst hb
          simp only [bracketsEscaped, if_neg hc, if_pos rfl, if_neg hc2]
          rw [← hrep]
          exact ih
        · simp only [bracketsEscaped, if_neg hc, if_neg hb]
          rw [← hrep]
          exact ih

/-- C8 counterexample: a logged message that contains both an opening
and a closing square bracket is rendered verbatim — its bracket
sequences are not escaped and stand as markup directives. -/
theorem log_escape_cx :
    "[red]alert[/red]".toList.contains '[' = true
      ∧ AdvancedPhaseTracker.logRender "[red]alert[/red]" = "  [red]alert[/red]"
      ∧ bracketsEscaped (AdvancedPhaseTracker.logRender "[red]alert[/red]").toList
          = false := by
  refine ⟨by decide, rfl, by decide⟩

/-- C8 (amended): the tracker log escapes square brackets only when
the message contains `[` but no `]` — in that case every bracket of
the rendered line is escaped; any message containing `]` (or no `[`)
is rendered verbatim after the two-space indent, unescaped. -/
theorem log_escape_conditional (m : String) :
    (m.toList.contains '[' = true → m.toList.contains ']' = false →
      bracketsEscaped (AdvancedPhaseTracker.logRender m).toList = true)
      ∧ (m.toList.contains '[' = false ∨ m.toList.contains ']' = true →
        AdvancedPhaseTracker.logRender m = "  " ++ m) := by
  constructor
  · intro h1 h2
    unfold AdvancedPhaseTracker.logRender
    rw [h1, h2]
    show bracketsEscaped (' ' :: ' ' :: replaceBrackets m.toList) = true
    have hsp : ∀ xs, bracketsEscaped (' ' :: xs) = bracketsEscaped xs := by
      intro xs
      cases xs <;> rfl
    rw [hsp, hsp]
    exact bracketsEscaped_replaceBrackets _
  · intro h
    unfold AdvancedPhaseTracker.logRender
    rcases h with h | h
    · rw [h]
      rfl
    · rw [h]
      simp

/-- C8 witness: a bracket-only message is escaped; a bracketed markup
message passes through verbatim. -/
theorem log_escape_conditional_witness :
    bracketsEscaped (AdvancedPhaseTracker.logRender "a [0").toList = true
      ∧ AdvancedPhaseTracker.logRender "[red]x[/red]" = "  [red]x[/red]" :=
  ⟨(log_escape_conditional "a [0").1 (by decide) (by decide),
   ((log_escape_conditional "[red]x[/red]").2 (Or.inr (by decide))).trans (by decide)⟩

/-- The stored duration is retrievable after a dict store. -/
theorem lookupQ_setQ (l : List (String × Rat)) (k : String) (v : Rat) :
    lookupQ (setQ l k v) k = some v := by
  induction l with
  | nil => simp [setQ, lookupQ]
  | cons p t ih =>
    by_cases hp : p.1 = k
    · simp [setQ, hp, lookupQ]
    · simp only [setQ, if_neg hp]
      simp only [lookupQ, List.find?]
      rw [show (p.1 == k) = false from beq_eq_false_iff_ne.mpr hp]
      exact ih

/-- C9 counterexample: after `start_phase`, `set_phase_total 200` and
`complete_phase`, the sub-progress count is the literal 100 while its
total is 200 — the indicator is not in a completed state, contrary to
the claim that the count is forced equal to the total. -/
theorem complete_phase_cx :
    c9final.phase_task.total = some 200
      ∧ c9final.phase_task.completed = 100
      ∧ ¬ c9final.phase_task.total = some c9final.phase_task.completed := by
  refine ⟨rfl, rfl, by decide⟩

/-- C9 (amended): `complete_phase` after the corresponding
`start_phase` records the phase's elapsed time, advances the overall
step counter to the phase index plus one, and sets the sub-progress
count to the constant 100 — not to the total configured with
`set_phase_total`, which it leaves unchanged. -/
theorem complete_phase_effects (s : AdvState) (now1 now2 : Rat) (name : String)
    (total : Int) (s1 : AdvState) (out1 : List String)
    (hnz : now1 ≠ 0)
    (hstart : AdvancedPhaseTracker.start_phase s now1 name = Except.ok (s1, out1)) :
    lookupQ ((AdvancedPhaseTracker.complete_phase
        (AdvancedPhaseTracker.set_phase_total s1 total) now2 name).1).phase_times name
        = some (now2 - now1)
      ∧ ((AdvancedPhaseTracker.complete_phase
          (AdvancedPhaseTracker.set_phase_total s1 total) now2 name).1).overall_task.completed
        = (s.phases.indexOf name : Int) + 1
      ∧ ((AdvancedPhaseTracker.complete_phase
          (AdvancedPhaseTracker.set_phase_total s1 total) now2 name).1).phase_task.completed
        = 100
      ∧ ((AdvancedPhaseTracker.complete_phase
          (AdvancedPhaseTracker.set_phase_total s1 total) now2 name).1).phase_task.total
        = some total := by
  unfold AdvancedPhaseTracker.start_phase pyIndex at hstart
  by_cases hmem : name ∈ s.phases
  · rw [if_pos hmem] at hstart
    simp only [Except.ok.injEq, Prod.mk.injEq] at hstart
    obtain ⟨hs1, hout⟩ := hstart
    subst hs1
    have htt : timeTruthy (some now1) = true := by
      simp [timeTruthy, hnz]
    refine ⟨?_, ?_, ?_, ?_⟩
    · simp [AdvancedPhaseTracker.complete_phase,
        AdvancedPhaseTracker.set_phase_total, htt, lookupQ_setQ]
    · simp [AdvancedPhaseTracker.complete_phase,
        AdvancedPhaseTracker.set_phase_total, htt]
    · simp [AdvancedPhaseTracker.complete_phase,
        AdvancedPhaseTracker.set_phase_total, htt]
    · simp [AdvancedPhaseTracker.complete_phase,
        AdvancedPhaseTracker.set_phase_total, htt]
  · rw [if_neg hmem] at hstart
    exact absurd hstart (by simp)

/-- Outcome of the runner when the executable is missing. -/
theorem run_radmc_result_notfound (kind : TrackerKind) (exe : String)
    (rest : List String) (env : CmdEnv) (total : TotalArg)
    (hw : env.which exe = false) :
    run_radmc_command kind (exe :: rest) env total
      = ([Ev.logCmd (String.intercalate " " (exe :: rest)),
          Ev.printErr ("Error: Command \x27" ++ exe ++ "\x27 not found!"),
          Ev.logError ("Command not found: " ++ exe)],
         Except.error (PyExn.fileNotFound ("Command not found: " ++ exe))) := by
  simp [run_radmc_command, hw]

/-- Outcome of the runner on a nonzero exit status. -/
theorem run_radmc_result_fail (kind : TrackerKind) (exe : String)
    (rest : List String) (env : CmdEnv) (total : TotalArg)
    (hw : env.which exe = true) (hx : ¬ env.exitCode = 0) :
    (run_radmc_command kind (exe :: rest) env total).2
      = Except.error (PyExn.runtimeError ("Command failed: "
          ++ String.intercalate " " (exe :: rest))) := by
  cases kind <;> simp [run_radmc_command, hw, hx]

/-- Outcome of the runner on exit status zero. -/
theorem run_radmc_result_ok (kind : TrackerKind) (exe : String)
    (rest : List String) (env : CmdEnv) (total : TotalArg)
    (hw : env.which exe = true) (hx : env.exitCode = 0) :
    (run_radmc_command kind (exe :: rest) env total).2 = Except.ok () := by
  cases kind <;> simp [run_radmc_command, hw, hx]

/-- Every event of a `totalEvents` preamble is a set-total or a
tracker log. -/
theorem mem_totalEvents (t : TotalArg) (e : Ev) (h : e ∈ totalEvents t) :
    (∃ n, e = Ev.setPhaseTotal n) ∨ (∃ s, e = Ev.trackerLog s) := by
  cases t with
  | pynone => simp [totalEvents] at h
  | pyint n =>
    dsimp only [totalEvents] at h
    split at h
    · simp at h
      exact Or.inl ⟨n, h⟩
    · simp at h
  | pystr s =>
    dsimp only [totalEvents] at h
    split at h
    · simp at h
    · split at h
      · simp at h
        exact Or.inl ⟨_, h⟩
      · simp at h
        exact Or.inr ⟨_, h⟩

/-- Every event of a processed output line is a tracker log or a
progress update. -/
theorem mem_processLine (b : Bool) (l : String) (e : Ev)
    (h : e ∈ processLine b l) :
    (∃ s, e = Ev.trackerLog s) ∨ (∃ n, e = Ev.updateProgress n) := by
  dsimp only [processLine] at h
  split at h
  · simp at h
  · rcases List.mem_cons.mp h with h | h
    · exact Or.inl ⟨_, h⟩
    · split at h
      · split at h
        · simp at h
          exact Or.inr ⟨_, h⟩
        · simp at h
      · simp at h

/-- Inventory of `run_radmc_command` events. -/
theorem run_radmc_events (kind : TrackerKind) (args : List String)
    (env : CmdEnv) (total : TotalArg) :
    ∀ e ∈ (run_radmc_command kind args env total).1, cmdEvKind e = true := by
  intro e h
  cases args with
  | nil =>
    simp [run_radmc_command] at h
    subst h
    rfl
  | cons exe rest =>
    by_cases hw : env.which exe = true
    · cases kind with
      | raw =>
        simp only [run_radmc_command, hw, if_true] at h
        split at h <;> simp at h <;>
          rcases h with rfl | rfl | rfl | rfl | rfl <;> rfl
      | advanced =>
        simp only [run_radmc_command, hw, if_true] at h
        have hbig : ∀ e2 : Ev, e2 ∈ [Ev.logCmd (String.intercalate " " (exe :: rest))]
              ++ totalEvents total ++ [Ev.spawn (exe :: rest)]
              ++ (env.lines.map (processLine (totalTruthy total))).flatten
              ++ [Ev.logReturnCode env.exitCode, Ev.logDuration] →
            cmdEvKind e2 = true := by
          intro e2 h2
          rcases List.mem_append.mp h2 with h2 | h2
          · rcases List.mem_append.mp h2 with h2 | h2
            · rcases List.mem_append.mp h2 with h2 | h2
              · rcases List.mem_append.mp h2 with h2 | h2
                · simp at h2
                  subst h2
                  rfl
                · rcases mem_totalEvents total e2 h2 with ⟨n, rfl⟩ | ⟨s, rfl⟩ <;> rfl
              · simp at h2
                subst h2
                rfl
            · rcases List.mem_flatten.mp h2 with ⟨seg, hseg, hmem⟩
              rcases List.mem_map.mp hseg with ⟨l, _, rfl⟩
              rcases mem_processLine _ l e2 hmem with ⟨s, rfl⟩ | ⟨n, rfl⟩ <;> rfl
          · simp at h2
            rcases h2 with rfl | rfl <;> rfl
        split at h
        · rcases List.mem_append.mp h with h | h
          · exact hbig e h
          · simp at h
            rcases h with rfl | rfl <;> rfl
        · exact hbig e h
    · have hw2 : env.which exe = false := by
        cases hval : env.which exe
        · rfl
        · exact absurd hval hw
      rw [run_radmc_result_notfound kind exe rest env total hw2] at h
      simp at h
      rcases h with rfl | rfl | rfl <;> rfl

/-- The advanced runner logs the failure through the tracker before
raising. -/
theorem run_radmc_fail_adv_logged (exe : String) (rest : List String)
    (env : CmdEnv) (total : TotalArg)
    (hw : env.which exe = true) (hx : ¬ env.exitCode = 0) :
    Ev.trackerLog ("[red bold]Process failed with code "
        ++ toString env.exitCode ++ "[/red bold]")
      ∈ (run_radmc_command TrackerKind.advanced (exe :: rest) env total).1 := by
  simp [run_radmc_command, hw, hx]

/-- C5: the runner raises `FileNotFoundError` when the executable does
not resolve — before any subprocess is spawned — and, in both tracker
modes, raises `RuntimeError` exactly when the process exits nonzero,
returning normally on exit status zero. -/
theorem run_radmc_error_contract (kind : TrackerKind) (exe : String)
    (rest : List String) (env : CmdEnv) (total : TotalArg) :
    (env.which exe = false →
      (run_radmc_command kind (exe :: rest) env total).2
          = Except.error (PyExn.fileNotFound ("Command not found: " ++ exe))
        ∧ ∀ args, Ev.spawn args ∉ (run_radmc_command kind (exe :: rest) env total).1)
      ∧ (env.which exe = true →
        (((run_radmc_command kind (exe :: rest) env total).2
            = Except.error (PyExn.runtimeError ("Command failed: "
                ++ String.intercalate " " (exe :: rest)))) ↔ ¬ env.exitCode = 0)
          ∧ (env.exitCode = 0 →
            (run_radmc_command kind (exe :: rest) env total).2 = Except.ok ())) := by
  constructor
  · intro hw
    rw [run_radmc_result_notfound kind exe rest env total hw]
    constructor
    · rfl
    · intro args
      simp
  · intro hw
    by_cases hx : env.exitCode = 0
    · have h2 := run_radmc_result_ok kind exe rest env total hw hx
      refine ⟨⟨fun h => absurd h (by rw [h2]; simp), fun h => absurd hx h⟩, fun _ => h2⟩
    · have h2 := run_radmc_result_fail kind exe rest env total hw hx
      exact ⟨⟨fun _ => hx, fun _ => h2⟩, fun h0 => absurd h0 hx⟩

/-- C5 witness: a missing executable raises `FileNotFoundError` with
no spawn; exit 1 raises `RuntimeError`; exit 0 returns normally. -/
theorem run_radmc_error_contract_witness :
    ((run_radmc_command TrackerKind.raw ["radmc3d"] ⟨fun _ => false, 0, []⟩
        TotalArg.pynone).2
      = Except.error (PyExn.fileNotFound ("Command not found: " ++ "radmc3d")))
      ∧ (Ev.spawn ["radmc3d"] ∉ (run_radmc_command TrackerKind.raw ["radmc3d"]
          ⟨fun _ => false, 0, []⟩ TotalArg.pynone).1)
      ∧ ((run_radmc_command TrackerKind.advanced ["radmc3d"] ⟨fun _ => true, 1, []⟩
          TotalArg.pynone).2
        = Except.error (PyExn.runtimeError ("Command failed: "
            ++ String.intercalate " " ["radmc3d"])))
      ∧ ((run_radmc_command TrackerKind.raw ["radmc3d"] ⟨fun _ => true, 0, []⟩
          TotalArg.pynone).2 = Except.ok ()) :=
  ⟨((run_radmc_error_contract TrackerKind.raw "radmc3d" []
      ⟨fun _ => false, 0, []⟩ TotalArg.pynone).1 rfl).1,
   ((run_radmc_error_contract TrackerKind.raw "radmc3d" []
      ⟨fun _ => false, 0, []⟩ TotalArg.pynone).1 rfl).2 ["radmc3d"],
   ((run_radmc_error_contract TrackerKind.advanced "radmc3d" []
      ⟨fun _ => true, 1, []⟩ TotalArg.pynone).2 rfl).1.mpr (by decide),
   ((run_radmc_error_contract TrackerKind.raw "radmc3d" []
      ⟨fun _ => true, 0, []⟩ TotalArg.pynone).2 rfl).2 rfl⟩

/-- `updatesOf` distributes over trace concatenation. -/
theorem updatesOf_append (a b : List Ev) :
    updatesOf (a ++ b) = updatesOf a ++ updatesOf b :=
  List.filterMap_append a b _

/-- The total preamble makes no progress updates. -/
theorem updatesOf_totalEvents (t : TotalArg) : updatesOf (totalEvents t) = [] := by
  cases t with
  | pynone => rfl
  | pyint n =>
    dsimp only [totalEvents]
    split <;> rfl
  | pystr s =>
    dsimp only [totalEvents]
    split
    · rfl
    · split <;> rfl

/-- Without a tracked total a line yields no progress update. -/
theorem updatesOf_processLine_false (l : String) :
    updatesOf (processLine false l) = [] := by
  dsimp only [processLine]
  split <;> rfl

/-- With a tracked total a line yields exactly its photon match. -/
theorem updatesOf_processLine_true (l : String) :
    updatesOf (processLine true l)
      = if pyStrip l = "" then []
        else
          match photonSearch (pyStrip l) with
          | some n => [n]
          | none => [] := by
  by_cases hc : pyStrip l = ""
  · simp [processLine, hc, updatesOf]
  · simp only [processLine, if_neg hc]
    cases hps : photonSearch (pyStrip l) <;> simp [updatesOf, hps, if_neg hc]

/-- The progress updates of the whole line loop are exactly the
photon matches of the non-empty stripped lines, in order — and there
are none at all when no truthy total is tracked. -/
theorem updatesOf_lines (b : Bool) (lines : List String) :
    updatesOf ((lines.map (processLine b)).flatten)
      = if b then
          lines.filterMap (fun l =>
            if pyStrip l = "" then none else photonSearch (pyStrip l))
        else [] := by
  induction lines with
  | nil => cases b <;> rfl
  | cons l t ih =>
    simp only [List.map_cons, List.flatten_cons]
    rw [updatesOf_append, ih]
    cases b with
    | false => simp [updatesOf_processLine_false]
    | true =>
      rw [updatesOf_processLine_true]
      by_cases hc : pyStrip l = ""
      · simp [hc, List.filterMap_cons]
      · cases hps : photonSearch (pyStrip l) <;>
          simp [hc, hps, List.filterMap_cons]

/-- A non-empty line is always forwarded to the tracker log. -/
theorem processLine_logs (b : Bool) (l : String) (hne : pyStrip l ≠ "") :
    Ev.trackerLog ("[dim]" ++ pyStrip l ++ "[/dim]") ∈ processLine b l := by
  dsimp only [processLine]
  rw [if_neg hne]
  exact List.mem_cons_self _ _

/-- C1 counterexample: in progress-tracked mode with no expected total
supplied, the line `"Photon nr: 4821"` — which matches the photon
pattern — is forwarded to the tracker log but `update_progress` is
never called: the runner only attempts the photon match when a truthy
`total_photons` was passed. -/
theorem photon_update_requires_total_cx :
    photonSearch "Photon nr: 4821" = some 4821
      ∧ Ev.trackerLog "[dim]Photon nr: 4821[/dim]"
          ∈ (run_radmc_command TrackerKind.advanced ["radmc3d"]
              ⟨fun _ => true, 0, ["Photon nr: 4821"]⟩ TotalArg.pynone).1
      ∧ Ev.updateProgress 4821
          ∉ (run_radmc_command TrackerKind.advanced ["radmc3d"]
              ⟨fun _ => true, 0, ["Photon nr: 4821"]⟩ TotalArg.pynone).1 := by
  refine ⟨by decide, by decide, by decide⟩

/-- C1 (amended): in progress-tracked mode every non-empty stripped
line is forwarded to `tracker.log` (wrapped in dim markup); when — and
only when — a truthy expected total was supplied, the sequence of
`update_progress` calls is exactly the sequence of photon-pattern
matches of the non-empty lines (a line with no match contributes no
update, so progress is left unchanged); with no (or a falsy) expected
total, `update_progress` is never called. -/
theorem runner_forwards_and_updates (exe : String) (rest : List String)
    (env : CmdEnv) (total : TotalArg) (hw : env.which exe = true) :
    (updatesOf (run_radmc_command TrackerKind.advanced (exe :: rest) env total).1
      = if totalTruthy total then
          env.lines.filterMap (fun l =>
            if pyStrip l = "" then none else photonSearch (pyStrip l))
        else [])
      ∧ (∀ l ∈ env.lines, pyStrip l ≠ "" →
        Ev.trackerLog ("[dim]" ++ pyStrip l ++ "[/dim]")
          ∈ (run_radmc_command TrackerKind.advanced (exe :: rest) env total).1) := by
  have hflat : Ev.trackerLog "" = Ev.trackerLog "" := rfl
  constructor
  · simp only [run_radmc_command, hw, if_true]
    split
    · rw [updatesOf_append]
      rw [show updatesOf [Ev.trackerLog ("[red bold]Process failed with code "
            ++ toString env.exitCode ++ "[/red bold]"),
          Ev.logError ("Command failed with return code "
            ++ toString env.exitCode ++ ": "
            ++ String.intercalate " " (exe :: rest))] = [] from rfl]
      rw [List.append_nil]
      rw [updatesOf_append, updatesOf_append, updatesOf_append, updatesOf_append]
      rw [updatesOf_totalEvents, updatesOf_lines]
      rw [show updatesOf [Ev.logCmd (String.intercalate " " (exe :: rest))] = [] from rfl,
        show updatesOf [Ev.spawn (exe :: rest)] = [] from rfl,
        show updatesOf [Ev.logReturnCode env.exitCode, Ev.logDuration] = [] from rfl]
      simp
    · rw [updatesOf_append, updatesOf_append, updatesOf_append, updatesOf_append]
      rw [updatesOf_totalEvents, updatesOf_lines]
      rw [show updatesOf [Ev.logCmd (String.intercalate " " (exe :: rest))] = [] from rfl,
        show updatesOf [Ev.spawn (exe :: rest)] = [] from rfl,
        show updatesOf [Ev.logReturnCode env.exitCode, Ev.logDuration] = [] from rfl]
      simp
  · intro l hl hne
    have hmem : Ev.trackerLog ("[dim]" ++ pyStrip l ++ "[/dim]")
        ∈ (env.lines.map (processLine (totalTruthy total))).flatten :=
      List.mem_flatten.mpr ⟨processLine (totalTruthy total) l,
        List.mem_map_of_mem _ hl, processLine_logs _ l hne⟩
    simp only [run_radmc_command, hw, if_true]
    split
    · simp only [List.mem_append]
      exact Or.inl (Or.inl (Or.inr hmem))
    · simp only [List.mem_append]
      exact Or.inl (Or.inr hmem)

/-- C1 witness: with a truthy total, the lines `"Photon nr: 4821"`,
a blank line, `"Photon nr. 99"` and an unmatched line produce exactly
the updates 4821 and 99, and the unmatched line is still forwarded. -/
theorem runner_forwards_and_updates_witness :
    updatesOf (run_radmc_command TrackerKind.advanced ["radmc3d"]
        ⟨fun _ => true, 0, ["Photon nr: 4821", " ", "Photon nr. 99", "noise"]⟩
        (TotalArg.pyint 1000000)).1
      = [4821, 99]
      ∧ Ev.trackerLog "[dim]noise[/dim]"
          ∈ (run_radmc_command TrackerKind.advanced ["radmc3d"]
              ⟨fun _ => true, 0, ["Photon nr: 4821", " ", "Photon nr. 99", "noise"]⟩
              (TotalArg.pyint 1000000)).1 := by
  have h := runner_forwards_and_updates "radmc3d" []
    ⟨fun _ => true, 0, ["Photon nr: 4821", " ", "Photon nr. 99", "noise"]⟩
    (TotalArg.pyint 1000000) rfl
  refine ⟨h.1.trans (by decide), h.2 "noise" (by decide) (by decide)⟩

/-- Sequencing emits no event outside its two parts. -/
theorem not_mem_pseq {e : Ev} {x y : Proc Unit}
    (hx : e ∉ x.1) (hy : e ∉ y.1) : e ∉ (pseq x y).1 := by
  rcases x with ⟨tx, rx⟩
  cases rx with
  | ok a =>
    intro h
    rcases List.mem_append.mp h with h | h
    · exact hx h
    · exact hy h
  | error e2 => exact hx

/-- Exception handling emits no event outside the body and handler. -/
theorem not_mem_phandle {e : Ev} {x : Proc Unit} {h : PyExn → Proc Unit}
    (hx : e ∉ x.1) (hh : ∀ ex, e ∉ (h ex).1) : e ∉ (phandle x h).1 := by
  rcases x with ⟨tx, rx⟩
  cases rx with
  | ok a => exact hx
  | error e2 =>
    intro hmem
    rcases List.mem_append.mp hmem with hmem | hmem
    · exact hx hmem
    · exact hh e2 hmem

/-- The first part's events always appear in a sequence. -/
theorem mem_pseq_left {e : Ev} {x y : Proc Unit} (hx : e ∈ x.1) :
    e ∈ (pseq x y).1 := by
  rcases x with ⟨tx, rx⟩
  cases rx with
  | ok a => exact List.mem_append.mpr (Or.inl hx)
  | error e2 => exact hx

/-- After an emit, the continuation's events appear in the sequence. -/
theorem mem_pseq_emit {e : Ev} {l : List Ev} {y : Proc Unit} (hy : e ∈ y.1) :
    e ∈ (pseq (emit l) y).1 :=
  List.mem_append.mpr (Or.inr hy)

/-- The body's events always appear under the handler. -/
theorem mem_phandle_left {e : Ev} {x : Proc Unit} {h : PyExn → Proc Unit}
    (hx : e ∈ x.1) : e ∈ (phandle x h).1 := by
  rcases x with ⟨tx, rx⟩
  cases rx with
  | ok a => exact hx
  | error e2 => exact List.mem_append.mpr (Or.inl hx)

/-- The full trace and outcome of a run whose MC Thermal solver
invocation exits nonzero, in advanced mode: three started phases,
both silencer scopes, the failing command's trace, then the handler
(stop, persistent-log error, console error), re-raising the
`RuntimeError`. -/
theorem run_to_mctherm_fail_adv (a : SimArgs) (env : OrcEnv)
    (hsetup : env.setupExn = none) (hconf : env.configureExn = none)
    (hw : env.which "radmc3d" = true) (hfail : ¬ env.mcthermExit = 0)
    (hm : a.ui_mode = "advanced") :
    run_single_simulation a env
      = ([Ev.trackerStart, Ev.startPhase "Setup", Ev.logPhaseStart "Setup",
          Ev.logInfo "Starting RADMC-3D simulation",
          Ev.suppressOn, Ev.suppressOff,
          Ev.logPhaseEnd "Setup", Ev.completePhase "Setup",
          Ev.startPhase "Configure Model", Ev.logPhaseStart "Configure Model",
          Ev.trackerLog "Writing input files...",
          Ev.logInfo "Writing RADMC-3D input files and grid setup",
          Ev.suppressOn, Ev.suppressOff,
          Ev.logPhaseEnd "Configure Model", Ev.completePhase "Configure Model",
          Ev.startPhase "MC Thermal", Ev.logPhaseStart "MC Thermal"]
          ++ (run_radmc_command TrackerKind.advanced (mcthermCmd a.threads)
              ⟨env.which, env.mcthermExit, env.mcthermLines⟩ a.nphot).1
          ++ [Ev.trackerStop,
              Ev.logError ("Simulation failed: "
                ++ ("Command failed: " ++ String.intercalate " " (mcthermCmd a.threads))),
              Ev.printErr ("Simulation failed: "
                ++ ("Command failed: " ++ String.intercalate " " (mcthermCmd a.threads)))],
         Except.error (PyExn.runtimeError ("Command failed: "
            ++ String.intercalate " " (mcthermCmd a.threads)))) := by
  have hc := run_radmc_result_fail TrackerKind.advanced "radmc3d"
      ["mctherm", "setthreads", toString a.threads, "sloppy"]
      ⟨env.which, env.mcthermExit, env.mcthermLines⟩ a.nphot hw hfail
  simp only [run_single_simulation, select_ui, hm, if_pos, pseq, phandle, emit,
    withSuppress, step, hsetup, hconf, mcthermCmd, PyExn.msg]
  rw [hc]
  simp [mcthermCmd, PyExn.msg]

/-- The raw-mode counterpart of `run_to_mctherm_fail_adv`: no
silencer scopes, raw command path, same handler and re-raise. -/
theorem run_to_mctherm_fail_raw (a : SimArgs) (env : OrcEnv)
    (hsetup : env.setupExn = none) (hconf : env.configureExn = none)
    (hw : env.which "radmc3d" = true) (hfail : ¬ env.mcthermExit = 0)
    (hm : ¬ a.ui_mode = "advanced") :
    run_single_simulation a env
      = ([Ev.trackerStart, Ev.startPhase "Setup", Ev.logPhaseStart "Setup",
          Ev.logInfo "Starting RADMC-3D simulation",
          Ev.logPhaseEnd "Setup", Ev.completePhase "Setup",
          Ev.startPhase "Configure Model", Ev.logPhaseStart "Configure Model",
          Ev.trackerLog "Writing input files...",
          Ev.logInfo "Writing RADMC-3D input files and grid setup",
          Ev.logPhaseEnd "Configure Model", Ev.completePhase "Configure Model",
          Ev.startPhase "MC Thermal", Ev.logPhaseStart "MC Thermal"]
          ++ (run_radmc_command TrackerKind.raw (mcthermCmd a.threads)
              ⟨env.which, env.mcthermExit, env.mcthermLines⟩ a.nphot).1
          ++ [Ev.trackerStop,
              Ev.logError ("Simulation failed: "
                ++ ("Command failed: " ++ String.intercalate " " (mcthermCmd a.threads))),
              Ev.printErr ("Simulation failed: "
                ++ ("Command failed: " ++ String.intercalate " " (mcthermCmd a.threads)))],
         Except.error (PyExn.runtimeError ("Command failed: "
            ++ String.intercalate " " (mcthermCmd a.threads)))) := by
  have hc := run_radmc_result_fail TrackerKind.raw "radmc3d"
      ["mctherm", "setthreads", toString a.threads, "sloppy"]
      ⟨env.which, env.mcthermExit, env.mcthermLines⟩ a.nphot hw hfail
  simp only [run_single_simulation, select_ui, hm, if_false, pseq, phandle, emit,
    withSuppress, step, hsetup, hconf, mcthermCmd, PyExn.msg]
  rw [hc]
  simp [mcthermCmd, PyExn.msg]

/-- Runner events never resolve to a `start_phase` call. -/
theorem cmdEv_no_startPhase (e : Ev) (h : cmdEvKind e = true) :
    startPhaseName e = none := by
  cases e <;> first | rfl | simp [cmdEvKind] at h

/-- C2 counterexample: a raw-mode run whose MC Thermal invocation
exits with status 1 raises and stops the tracker once, but the only
`tracker.log` call of the whole run is the benign configure-phase
message — the error is printed to the console and written to the
persistent log, never logged through the tracker. -/
theorem raw_failure_not_tracker_logged_cx :
    ((run_single_simulation exArgsRaw exEnvMcFail).1.filter isTrackerLogEv
      = [Ev.trackerLog "Writing input files..."])
      ∧ ((run_single_simulation exArgsRaw exEnvMcFail).2
        = Except.error (PyExn.runtimeError
            "Command failed: radmc3d mctherm setthreads 32 sloppy"))
      ∧ ((run_single_simulation exArgsRaw exEnvMcFail).1.count Ev.trackerStop = 1) := by
  refine ⟨by decide, by decide, by decide⟩

/-- C2 (amended): when a solver invocation (here MC Thermal) exits
nonzero, the orchestrator re-raises the `RuntimeError` unchanged to
its caller, the tracker receives exactly one `stop` call, no phase
after the failing one is started, and the error is written to the
persistent log; it is additionally logged through the tracker in
progress-tracked (advanced) mode — in raw mode the error goes to the
console instead of the tracker. -/
theorem orchestrator_failure_propagation (a : SimArgs) (env : OrcEnv)
    (hsetup : env.setupExn = none) (hconf : env.configureExn = none)
    (hw : env.which "radmc3d" = true) (hfail : ¬ env.mcthermExit = 0) :
    ((run_single_simulation a env).2
        = Except.error (PyExn.runtimeError ("Command failed: "
            ++ String.intercalate " " (mcthermCmd a.threads))))
      ∧ ((run_single_simulation a env).1.count Ev.trackerStop = 1)
      ∧ (startPhasesOf (run_single_simulation a env).1
          = ["Setup", "Configure Model", "MC Thermal"])
      ∧ (Ev.logError ("Simulation failed: "
            ++ ("Command failed: " ++ String.intercalate " " (mcthermCmd a.threads)))
          ∈ (run_single_simulation a env).1)
      ∧ (a.ui_mode = "advanced" →
        Ev.trackerLog ("[red bold]Process failed with code "
            ++ toString env.mcthermExit ++ "[/red bold]")
          ∈ (run_single_simulation a env).1) := by
  by_cases hm : a.ui_mode = "advanced"
  · rw [run_to_mctherm_fail_adv a env hsetup hconf hw hfail hm]
    have hnostop : Ev.trackerStop ∉ (run_radmc_command TrackerKind.advanced
        (mcthermCmd a.threads)
        ⟨env.which, env.mcthermExit, env.mcthermLines⟩ a.nphot).1 := by
      intro hmem
      have h2 := run_radmc_events _ _ _ _ Ev.trackerStop hmem
      simp [cmdEvKind] at h2
    have hnosp : ∀ e ∈ (run_radmc_command TrackerKind.advanced
        (mcthermCmd a.threads)
        ⟨env.which, env.mcthermExit, env.mcthermLines⟩ a.nphot).1,
        startPhaseName e = none := by
      intro e he
      exact cmdEv_no_startPhase e (run_radmc_events _ _ _ _ e he)
    refine ⟨rfl, ?_, ?_, ?_, ?_⟩
    · simp [List.count_append, List.count_cons, List.count_eq_zero.mpr hnostop]
    · simp [startPhasesOf, List.filterMap_append, List.filterMap_cons,
        startPhaseName, List.filterMap_eq_nil_iff.mpr hnosp]
    · simp
    · intro _
      have hlog := run_radmc_fail_adv_logged "radmc3d"
          ["mctherm", "setthreads", toString a.threads, "sloppy"]
          ⟨env.which, env.mcthermExit, env.mcthermLines⟩ a.nphot hw hfail
      simp only [List.mem_append]
      exact Or.inl (Or.inr hlog)
  · rw [run_to_mctherm_fail_raw a env hsetup hconf hw hfail hm]
    have hnostop : Ev.trackerStop ∉ (run_radmc_command TrackerKind.raw
        (mcthermCmd a.threads)
        ⟨env.which, env.mcthermExit, env.mcthermLines⟩ a.nphot).1 := by
      intro hmem
      have h2 := run_radmc_events _ _ _ _ Ev.trackerStop hmem
      simp [cmdEvKind] at h2
    have hnosp : ∀ e ∈ (run_radmc_command TrackerKind.raw
        (mcthermCmd a.threads)
        ⟨env.which, env.mcthermExit, env.mcthermLines⟩ a.nphot).1,
        startPhaseName e = none := by
      intro e he
      exact cmdEv_no_startPhase e (run_radmc_events _ _ _ _ e he)
    refine ⟨rfl, ?_, ?_, ?_, ?_⟩
    · simp [List.count_append, List.count_cons, List.count_eq_zero.mpr hnostop]
    · simp [startPhasesOf, List.filterMap_append, List.filterMap_cons,
        startPhaseName, List.filterMap_eq_nil_iff.mpr hnosp]
    · simp
    · intro hadv
      exact absurd hadv hm

/-- C2 witness: an advanced-mode run with MC Thermal exiting 1
satisfies all five conjuncts. -/
theorem orchestrator_failure_propagation_witness :
    (((run_single_simulation { exArgsRaw with ui_mode := "advanced" } exEnvMcFail).2
        = Except.error (PyExn.runtimeError ("Command failed: "
            ++ String.intercalate " " (mcthermCmd 32))))
      ∧ ((run_single_simulation { exArgsRaw with ui_mode := "advanced" }
          exEnvMcFail).1.count Ev.trackerStop = 1)
      ∧ (startPhasesOf (run_single_simulation { exArgsRaw with ui_mode := "advanced" }
          exEnvMcFail).1 = ["Setup", "Configure Model", "MC Thermal"])
      ∧ (Ev.logError ("Simulation failed: "
            ++ ("Command failed: " ++ String.intercalate " " (mcthermCmd 32)))
          ∈ (run_single_simulation { exArgsRaw with ui_mode := "advanced" }
              exEnvMcFail).1)
      ∧ (Ev.trackerLog "[red bold]Process failed with code 1[/red bold]"
          ∈ (run_single_simulation { exArgsRaw with ui_mode := "advanced" }
              exEnvMcFail).1)) := by
  have h := orchestrator_failure_propagation
    { exArgsRaw with ui_mode := "advanced" } exEnvMcFail rfl rfl rfl (by decide)
  refine ⟨h.1, h.2.1, h.2.2.1, h.2.2.2.1, ?_⟩
  have h5 := h.2.2.2.2 rfl
  simpa using h5

/-- In any mode other than advanced, a run never engages the output
suppressor: no `suppressOn` event occurs anywhere in its trace. -/
theorem suppressOn_not_in_raw (a : SimArgs) (env : OrcEnv)
    (hm : ¬ a.ui_mode = "advanced") :
    Ev.suppressOn ∉ (run_single_simulation a env).1 := by
  have hnc : ∀ (kind : TrackerKind) (args : List String) (cenv : CmdEnv)
      (total : TotalArg),
      Ev.suppressOn ∉ (run_radmc_command kind args cenv total).1 := by
    intro kind args cenv total hmem
    have h2 := run_radmc_events kind args cenv total Ev.suppressOn hmem
    simp [cmdEvKind] at h2
  simp only [run_single_simulation, select_ui, hm, if_false]
  apply not_mem_phandle
  · apply not_mem_pseq
    · simp [emit]
    · apply not_mem_pseq
      · simp [emit]
      · apply not_mem_pseq
        · simp [withSuppress, step]
        · apply not_mem_pseq
          · simp [emit]
          · apply not_mem_pseq
            · simp [emit]
            · apply not_mem_pseq
              · simp [withSuppress, step]
              · apply not_mem_pseq
                · simp [emit]
                · apply not_mem_pseq
                  · simp [emit]
                  · apply not_mem_pseq
                    · exact hnc _ _ _ _
                    · apply not_mem_pseq
                      · simp [emit]
                      · apply not_mem_pseq
                        · simp [emit]
                        · apply not_mem_pseq
                          · exact hnc _ _ _ _
                          · apply not_mem_pseq
                            · simp [emit]
                            · apply not_mem_pseq
                              · by_cases hi : a.make_images = true
                                · rw [if_pos hi]
                                  apply not_mem_pseq
                                  · simp [emit]
                                  · apply not_mem_pseq
                                    · exact hnc _ _ _ _
                                    · apply not_mem_pseq
                                      · simp [step]
                                      · simp [emit]
                                · rw [if_neg hi]
                                  simp [emit]
                              · apply not_mem_pseq
                                · simp [emit]
                                · apply not_mem_pseq
                                  · simp [step]
                                  · apply not_mem_pseq
                                    · simp [emit]
                                    · apply not_mem_pseq
                                      · apply not_mem_phandle
                                        · simp [step]
                                        · intro ex
                                          simp [emit]
                                      · simp [emit]
  · intro ex
    simp

/-- An advanced-mode run always engages the suppressor in its first
phase. -/
theorem suppressOn_in_adv (a : SimArgs) (env : OrcEnv)
    (hm : a.ui_mode = "advanced") :
    Ev.suppressOn ∈ (run_single_simulation a env).1 := by
  simp only [run_single_simulation, select_ui, hm, if_pos]
  apply mem_phandle_left
  apply mem_pseq_emit
  apply mem_pseq_emit
  apply mem_pseq_left
  simp [withSuppress, step]

/-- C10: any `ui_mode` other than exactly `"advanced"` silently
selects the passthrough tracker without the silencer — the run is
identical to a `"raw"`-mode run and no error is raised for the
unrecognized value — and the output suppressor is engaged exactly in
advanced mode. -/
theorem ui_mode_selection :
    (∀ mode, mode ≠ "advanced" → select_ui mode = (TrackerKind.raw, false))
      ∧ select_ui "advanced" = (TrackerKind.advanced, true)
      ∧ (∀ (a : SimArgs) (env : OrcEnv), a.ui_mode ≠ "advanced" →
          run_single_simulation a env
              = run_single_simulation { a with ui_mode := "raw" } env
            ∧ Ev.suppressOn ∉ (run_single_simulation a env).1)
      ∧ (∀ (a : SimArgs) (env : OrcEnv), a.ui_mode = "advanced" →
          Ev.suppressOn ∈ (run_single_simulation a env).1) := by
  refine ⟨?_, by simp [select_ui], ?_, ?_⟩
  · intro mode h
    simp [select_ui, h]
  · intro a env h
    constructor
    · have hsel : select_ui a.ui_mode = select_ui "raw" := by
        simp [select_ui, h]
      simp only [run_single_simulation]
      rw [hsel]
      rfl
    · exact suppressOn_not_in_raw a env h
  · intro a env h
    exact suppressOn_in_adv a env h

/-- C10 witness: the unrecognized mode `"verbose"` behaves exactly as
raw mode, with no suppressor engagement, while advanced mode engages
it. -/
theorem ui_mode_selection_witness :
    select_ui "verbose" = (TrackerKind.raw, false)
      ∧ run_single_simulation { exArgsRaw with ui_mode := "verbose" } exEnvOK
          = run_single_simulation
              { { exArgsRaw with ui_mode := "verbose" } with ui_mode := "raw" } exEnvOK
      ∧ Ev.suppressOn
          ∉ (run_single_simulation { exArgsRaw with ui_mode := "verbose" } exEnvOK).1
      ∧ Ev.suppressOn
          ∈ (run_single_simulation { exArgsRaw with ui_mode := "advanced" } exEnvOK).1 :=
  ⟨ui_mode_selection.1 "verbose" (by decide),
   (ui_mode_selection.2.2.1 { exArgsRaw with ui_mode := "verbose" } exEnvOK (by decide)).1,
   (ui_mode_selection.2.2.1 { exArgsRaw with ui_mode := "verbose" } exEnvOK (by decide)).2,
   ui_mode_selection.2.2.2 { exArgsRaw with ui_mode := "advanced" } exEnvOK rfl⟩

/-- C6: the scoped output suppressor restores the process descriptor
table exactly — for every descriptor, including standard output (1),
standard error (2) and the temporaries it allocated — on every exit
path, and passes the wrapped body's outcome (normal or raised)
through unchanged.  `dn`, `o1`, `o2` are the descriptors the kernel
hands out for the devnull handle and the two `dup` copies; the
freshness and distinctness hypotheses say exactly that they were free
and distinct. -/
theorem suppress_output_restores (s : FDTable) (dn o1 o2 devnullT t1 t2 : Nat)
    (body : Except PyExn Unit)
    (h1 : s 1 = some t1) (h2 : s 2 = some t2)
    (hdn : s dn = none) (ho1 : s o1 = none) (ho2 : s o2 = none)
    (hno1 : dn ≠ o1) (hno2 : dn ≠ o2) (ho12 : o1 ≠ o2) :
    (∀ fd, (suppress_output s dn o1 o2 devnullT body).1 fd = s fd)
      ∧ (suppress_output s dn o1 o2 devnullT body).2 = body := by
  have hd1 : dn ≠ 1 := by
    intro h
    rw [h, h1] at hdn
    exact Option.noConfusion hdn
  have hd2 : dn ≠ 2 := by
    intro h
    rw [h, h2] at hdn
    exact Option.noConfusion hdn
  have ho11 : o1 ≠ 1 := by
    intro h
    rw [h, h1] at ho1
    exact Option.noConfusion ho1
  have ho12b : o1 ≠ 2 := by
    intro h
    rw [h, h2] at ho1
    exact Option.noConfusion ho1
  have ho21 : o2 ≠ 1 := by
    intro h
    rw [h, h1] at ho2
    exact Option.noConfusion ho2
  have ho22 : o2 ≠ 2 := by
    intro h
    rw [h, h2] at ho2
    exact Option.noConfusion ho2
  constructor
  · intro fd
    by_cases e0 : fd = dn
    · subst e0
      simp [suppress_output, fdUpdate, hd1, hd2, ho11, ho12b, ho21, ho22,
        hno1, hno2, ho12, Ne.symm hd1, Ne.symm hd2, Ne.symm ho11,
        Ne.symm ho12b, Ne.symm ho21, Ne.symm ho22, Ne.symm hno1,
        Ne.symm hno2, Ne.symm ho12, hdn, ho1, ho2]
    · by_cases ea : fd = o1
      · subst ea
        simp [suppress_output, fdUpdate, hd1, hd2, ho11, ho12b, ho21, ho22,
          hno1, hno2, ho12, Ne.symm hd1, Ne.symm hd2, Ne.symm ho11,
          Ne.symm ho12b, Ne.symm ho21, Ne.symm ho22, Ne.symm hno1,
          Ne.symm hno2, Ne.symm ho12, hdn, ho1, ho2]
      · by_cases eb : fd = o2
        · subst eb
          simp [suppress_output, fdUpdate, hd1, hd2, ho11, ho12b, ho21, ho22,
            hno1, hno2, ho12, Ne.symm hd1, Ne.symm hd2, Ne.symm ho11,
            Ne.symm ho12b, Ne.symm ho21, Ne.symm ho22, Ne.symm hno1,
            Ne.symm hno2, Ne.symm ho12, hdn, ho1, ho2]
        · by_cases ec : fd = 1
          · subst ec
            simp [suppress_output, fdUpdate, hd1, hd2, ho11, ho12b, ho21, ho22,
              hno1, hno2, ho12, Ne.symm hd1, Ne.symm hd2, Ne.symm ho11,
              Ne.symm ho12b, Ne.symm ho21, Ne.symm ho22, Ne.symm hno1,
              Ne.symm hno2, Ne.symm ho12, hdn, ho1, ho2]
          · by_cases ed : fd = 2
            · subst ed
              simp [suppress_output, fdUpdate, hd1, hd2, ho11, ho12b, ho21, ho22,
                hno1, hno2, ho12, Ne.symm hd1, Ne.symm hd2, Ne.symm ho11,
                Ne.symm ho12b, Ne.symm ho21, Ne.symm ho22, Ne.symm hno1,
                Ne.symm hno2, Ne.symm ho12, hdn, ho1, ho2]
            · simp [suppress_output, fdUpdate, e0, ea, eb, ec, ed]
  · rfl

/-- C6 witness: on a concrete table with descriptors 0-2 open, a
suppression scope whose body raises restores descriptors 1 and 2 to
their original targets, closes its temporaries, and re-raises the
body's exception. -/
theorem suppress_output_restores_witness :
    ((suppress_output exFDTable 3 4 5 77 (Except.error (PyExn.other "boom"))).1 1
        = some 101)
      ∧ ((suppress_output exFDTable 3 4 5 77 (Except.error (PyExn.other "boom"))).1 2
        = some 102)
      ∧ ((suppress_output exFDTable 3 4 5 77 (Except.error (PyExn.other "boom"))).1 3
        = none)
      ∧ ((suppress_output exFDTable 3 4 5 77 (Except.error (PyExn.other "boom"))).2
        = Except.error (PyExn.other "boom")) := by
  have h := suppress_output_restores exFDTable 3 4 5 77 101 102
    (Except.error (PyExn.other "boom")) rfl rfl rfl rfl rfl
    (by decide) (by decide) (by decide)
  exact ⟨(h.1 1).trans rfl, (h.1 2).trans rfl, (h.1 3).trans rfl, h.2⟩

/-- C9 witness: on a two-phase tracker, starting `"Setup"` at time 2,
setting a total of 300 and completing at time 7 records 5 elapsed,
advances the overall counter to 1 and leaves the count at 100 with
total 300. -/
theorem complete_phase_effects_witness :
    lookupQ ((AdvancedPhaseTracker.complete_phase
        (AdvancedPhaseTracker.set_phase_total exStartedState 300) 7 "Setup").1).phase_times
        "Setup" = some ((7 : Rat) - 2)
      ∧ ((AdvancedPhaseTracker.complete_phase
          (AdvancedPhaseTracker.set_phase_total exStartedState 300) 7 "Setup").1).overall_task.completed
        = ((["Setup", "Save Files"].indexOf "Setup" : Nat) : Int) + 1
      ∧ ((AdvancedPhaseTracker.complete_phase
          (AdvancedPhaseTracker.set_phase_total exStartedState 300) 7 "Setup").1).phase_task.completed
        = 100
      ∧ ((AdvancedPhaseTracker.complete_phase
          (AdvancedPhaseTracker.set_phase_total exStartedState 300) 7 "Setup").1).phase_task.total
        = some 300 :=
  complete_phase_effects
    (AdvancedPhaseTracker.init ["Setup", "Save Files"] []) 2 7 "Setup" 300
    exStartedState
    ["  [bold bright_green]→[/bold bright_green] Starting: [bold bright_green]Setup[/bold bright_green]"]
    (by decide) (by decide)

end ProtoDisk
